import Mathlib

/-!
Shallow embedding of `src/core/os.cpp` of the crown engine: a thin
platform-abstraction layer over POSIX (and, where a claim concerns them, the
OSX and Windows branches of the same functions).

Modelling conventions:
* A filesystem path is the list of its components.
* The filesystem visible to one call is a finite association list from paths
  to entries; the entry records what `lstat` reports at the path itself
  (`lstat` does not follow a trailing symbolic link).  A symbolic-link entry
  records only whether its target resolves, which is what `access(2)` (which
  does follow the trailing link) observes.
* `CE_ASSERT(cond, ...)` comes from `error.h`, which is not part of the
  sources here.  Modelled from the spec: a hard abort when `cond` is false
  (the spec calls this "precondition-via-assertion" style and says callers
  cannot recover from the hard abort).  A function whose C body can hit a
  failing `CE_ASSERT` therefore returns an `Option`: `none` means the
  assertion fired and nothing was returned, `some v` a normal return of `v`.
-/

/-- A filesystem path, as the list of its name components. -/
abbrev FPath := List String

/-- What `lstat` reports as the type of the entry at a path: a regular file
(with its size), a directory (with the names of its immediate children), or a
symbolic link (recording only whether the link's target resolves to an
existing entry). -/
inductive EKind where
  | regular (size : Nat)
  | directory (children : List String)
  | symlink (targetExists : Bool)
deriving DecidableEq

/-- One filesystem entry: its kind together with its last-modification time
(the `st_mtime` field `lstat` fills in). -/
structure Entry where
  kind : EKind
  st_mtime : Nat
deriving DecidableEq

/-- The filesystem state a single call observes: a finite map from paths to
entries, as an association list. -/
structure FS where
  entries : List (FPath × Entry)
deriving DecidableEq

/-- The entry at path `p`, if any (the `lstat` view: no following of a
trailing symbolic link). -/
def FS.lookup (fs : FS) (p : FPath) : Option Entry :=
  (fs.entries.find? (fun pe => pe.1 == p)).map Prod.snd

/-- `S_ISDIR` on the `st_mode` of an entry. -/
def S_ISDIR : EKind → Bool
  | .directory _ => true
  | _ => false

/-- `S_ISREG` on the `st_mode` of an entry. -/
def S_ISREG : EKind → Bool
  | .regular _ => true
  | _ => false

/-- `S_ISLNK` on the `st_mode` of an entry. -/
def S_ISLNK : EKind → Bool
  | .symlink _ => true
  | _ => false

/-- `access(path, F_OK) != -1`: whether the path resolves to an existing
entry.  `access` follows a trailing symbolic link, so on a link it reports
whether the target resolves; on a present non-link entry it succeeds; on an
absent path it fails. -/
def access_F_OK (fs : FS) (p : FPath) : Bool :=
  match fs.lookup p with
  | none => false
  | some e =>
    match e.kind with
    | .symlink targetExists => targetExists
    | _ => true

/-- `lstat(path, &info)`: `some info` when the call succeeds (there is an
entry at the path itself), `none` when it fails with an error. -/
def lstat (fs : FS) (p : FPath) : Option Entry :=
  fs.lookup p

namespace os

/-- `bool exists(const char* path)` (POSIX branch):
`return access(path, F_OK) != -1;`. -/
def exists_ (fs : FS) (p : FPath) : Bool :=
  access_F_OK fs p

/-- `bool is_directory(const char* path)` (POSIX branch): `lstat` the path,
`CE_ASSERT(err == 0, ...)`, then
`return S_ISDIR(info.st_mode) == 1 && S_ISLNK(info.st_mode) == 0;`.
`none` means the assertion fired (the `lstat` failed). -/
def is_directory (fs : FS) (p : FPath) : Option Bool :=
  match lstat fs p with
  | none => none
  | some info => some (S_ISDIR info.kind && !(S_ISLNK info.kind))

/-- `bool is_file(const char* path)` (POSIX branch): `lstat` the path,
`CE_ASSERT(err == 0, ...)`, then
`return S_ISREG(info.st_mode) == 1 && S_ISLNK(info.st_mode) == 0;`.
`none` means the assertion fired (the `lstat` failed). -/
def is_file (fs : FS) (p : FPath) : Option Bool :=
  match lstat fs p with
  | none => none
  | some info => some (S_ISREG info.kind && !(S_ISLNK info.kind))

/-- `u64 mtime(const char* path)` (POSIX branch): `lstat` the path,
`CE_ASSERT(err == 0, ...)`, then `return info.st_mtime;`.
`none` means the assertion fired (the `lstat` failed). -/
def mtime (fs : FS) (p : FPath) : Option Nat :=
  match lstat fs p with
  | none => none
  | some info => some info.st_mtime

/-- Whether the parent directory of `p` (the path without its last
component) is an existing directory — the path-resolution step of
`mknod(2)`, which fails with `ENOENT` when a directory of the prefix is
missing. -/
def parent_is_directory (fs : FS) (p : FPath) : Bool :=
  match fs.lookup p.dropLast with
  | some e => S_ISDIR e.kind
  | none => false

/-- `void create_file(const char* path)` (POSIX branch):
`int err = ::mknod(path, 0644 | S_IFREG, 0); CE_ASSERT(err == 0, ...)`.
`mknod` fails with `EEXIST` when an entry at `path` already exists and with
`ENOENT` when the parent directory is missing; on success it creates an
empty regular file whose `st_mtime` the kernel sets to the call time `now`.
The result is (`true` = returned normally / `false` = the assertion fired,
the post-call filesystem); the filesystem is unmodified when `mknod`
fails.  Directory-children bookkeeping of the parent is not tracked: no
claim relates mutation to enumeration. -/
def create_file (fs : FS) (p : FPath) (now : Nat) : Bool × FS :=
  if (fs.lookup p).isSome then
    (false, fs)
  else if parent_is_directory fs p then
    (true, ⟨(p, ⟨.regular 0, now⟩) :: fs.entries⟩)
  else
    (false, fs)

/-- `opendir(path)`: `some` of the stream of names `readdir` will yield
(the `.` and `..` pseudo-entries, then the directory's children, in
OS-enumeration order) when `path` is an existing directory, `none` when the
path cannot be opened as a directory. -/
def opendir (fs : FS) (p : FPath) : Option (List String) :=
  match fs.lookup p with
  | some e =>
    match e.kind with
    | .directory children => some ("." :: ".." :: children)
    | _ => none
  | none => none

/-- `void list_files(const char* path, Vector<DynamicString>& files)`
(POSIX branch): if `opendir` fails, return at once (leaving `files` as it
was); otherwise for each `readdir` entry skip `"."` and `".."` and
`push_back` the entry name onto `files`. -/
def list_files (fs : FS) (p : FPath) (files : List String) : List String :=
  match opendir fs p with
  | none => files
  | some names =>
    names.foldl
      (fun acc dname => if dname == "." || dname == ".." then acc else acc ++ [dname])
      files

end os

/-- The two bits of the `DWORD` that `GetFileAttributes` returns and the
code inspects or that mark a link: `FILE_ATTRIBUTE_DIRECTORY`, and
`FILE_ATTRIBUTE_REPARSE_POINT` (set on a symbolic link).  On a symbolic
link the function reports the link's own attributes: the reparse-point bit
is set, and the directory bit is set exactly when it is a directory
symbolic link. -/
structure WinAttrs where
  directoryAttr : Bool
  reparsePoint : Bool
deriving DecidableEq

/-- The filesystem state the WINDOWS branch observes: per path, the
attributes `GetFileAttributes(path)` reports. -/
structure WinFS where
  attrs : List (FPath × WinAttrs)
deriving DecidableEq

/-- `GetFileAttributes(path)`: the attributes of the entry at `path`
(those of the link itself when the entry is a symbolic link), or `none`
for `INVALID_FILE_ATTRIBUTES` (no entry / cannot be read). -/
def WinFS.getFileAttributes (fs : WinFS) (p : FPath) : Option WinAttrs :=
  (fs.attrs.find? (fun pa => pa.1 == p)).map Prod.snd

/-- Update or add the entry at `p`: the new pair shadows any older one,
since `FS.lookup` takes the first match. -/
def FS.insert (fs : FS) (p : FPath) (e : Entry) : FS :=
  ⟨(p, e) :: fs.entries⟩

namespace os

/-- `bool is_directory(const char* path)`, WINDOWS branch:
`DWORD fattr = GetFileAttributes(path);
return fattr != INVALID_FILE_ATTRIBUTES && (fattr & FILE_ATTRIBUTE_DIRECTORY) != 0;`.
No assertion, and no symbolic-link exclusion: a directory symbolic link
carries the directory attribute and is accepted. -/
def is_directory_windows (fs : WinFS) (p : FPath) : Bool :=
  match fs.getFileAttributes p with
  | none => false
  | some fattr => fattr.directoryAttr

/-- `bool is_file(const char* path)`, WINDOWS branch:
`DWORD fattr = GetFileAttributes(path);
return fattr != INVALID_FILE_ATTRIBUTES && (fattr & FILE_ATTRIBUTE_DIRECTORY) == 0;`.
True for any readable entry without the directory attribute — a regular
file, but also a file symbolic link or any other non-directory entry. -/
def is_file_windows (fs : WinFS) (p : FPath) : Bool :=
  match fs.getFileAttributes p with
  | none => false
  | some fattr => !fattr.directoryAttr

/-- `void create_file(const char* path)`, WINDOWS branch:
`CreateFile(path, GENERIC_READ | GENERIC_WRITE, 0, NULL, CREATE_ALWAYS,
FILE_ATTRIBUTE_NORMAL, NULL)` then
`CE_ASSERT(hfile != INVALID_HANDLE_VALUE, ...)` and `CloseHandle`.
`CREATE_ALWAYS` semantics: on an existing regular file the call succeeds
and truncates the file to empty (its previous contents are destroyed); on
a free path whose parent directory exists it creates a new empty file; it
fails — so the assertion fires — when the parent directory is missing or
the path is an existing directory.  On an existing symbolic link the call
operates on the link's target, which this map does not track: the link
entry itself is unchanged and the call returns normally. -/
def create_file_windows (fs : FS) (p : FPath) (now : Nat) : Bool × FS :=
  match fs.lookup p with
  | some e =>
    match e.kind with
    | .regular _ => (true, fs.insert p ⟨.regular 0, now⟩)
    | .directory _ => (false, fs)
    | .symlink _ => (true, fs)
  | none =>
    if parent_is_directory fs p then
      (true, fs.insert p ⟨.regular 0, now⟩)
    else
      (false, fs)

end os

/-- The process environment: a finite map from variable names to values. -/
abbrev Env := List (String × String)

/-- The value of variable `name` in the environment, if set: what libc's
`::getenv` returns (`none` is the `NULL` pointer). -/
def Env.get (env : Env) (name : String) : Option String :=
  (env.find? (fun kv => kv.1 == name)).map Prod.snd

namespace os

/-- `const char* getenv(const char* name)`, POSIX branch:
`return ::getenv(name);`. -/
def getenv_posix (env : Env) (name : String) : Option String :=
  Env.get env name

/-- `const char* getenv(const char* name)`, WINDOWS branch: the
`GetEnvironmentVariable(name, buf, size)` call is commented out and the
branch is `return NULL;` unconditionally. -/
def getenv_windows (_env : Env) (_name : String) : Option String :=
  none

end os

/-- A `struct timespec` as `clock_gettime(CLOCK_MONOTONIC, &now)` fills it
in: seconds and nanoseconds (a valid sample has `0 ≤ tv_nsec < 10^9`). -/
structure Timespec where
  tv_sec : Int
  tv_nsec : Int
deriving DecidableEq

/-- A `struct timeval` as `gettimeofday(&now, NULL)` fills it in: the wall
clock, in seconds and microseconds. -/
structure Timeval where
  tv_sec : Int
  tv_usec : Int
deriving DecidableEq

namespace os

/-- `s64 clocktime()`, LINUX/ANDROID branch: sample `CLOCK_MONOTONIC` into
`now` and `return now.tv_sec * s64(1000000000) + now.tv_nsec;`.  The
function of the sampled `timespec`. -/
def clocktime_linux (now : Timespec) : Int :=
  now.tv_sec * 1000000000 + now.tv_nsec

/-- `s64 clocktime()`, OSX branch: sample the wall clock with
`gettimeofday` into `now` and
`return now.tv_sec * s64(1000000) + now.tv_usec;`. -/
def clocktime_osx (now : Timeval) : Int :=
  now.tv_sec * 1000000 + now.tv_usec

/-- `void sleep(u32 ms)` (POSIX branch): `usleep(ms * 1000);`.  `ms` has
the 32-bit unsigned type `u32`, so the multiplication is performed modulo
`2^32`; this is the microsecond count handed to `usleep`. -/
def sleep_usleep_usec (ms : Nat) : Nat :=
  (ms % 2 ^ 32) * 1000 % 2 ^ 32

end os

/-- The executables visible to the shell that `popen` spawns:
`run_exe path args` is `none` when `path` names no existing executable, and
otherwise the output lines the child writes (stdout and stderr merged — the
command string contains `2>&1`) together with its exit code (0–255). -/
structure ExecEnv where
  run_exe : String → String → Option (List String × Nat)

/-- The diagnostic line the shell spawned by `popen` writes when the
command names no existing executable; it is captured in the output because
the command string redirects with `2>&1`, and the shell then exits with
status 127. -/
def sh_not_found_line (path : String) : String :=
  "sh: " ++ path ++ ": command not found"

/-- The value `pclose` returns for a shell that exited normally with the
given code: the `wait(2)` status encoding, exit code in bits 8–15. -/
def wait_status (code : Nat) : Int :=
  Int.ofNat (code % 256 * 256)

namespace os

/-- `int execute_process(const char* path, const char* args, StringStream&
output)` (POSIX branch): build `cmd = path ++ " 2>&1 " ++ args`, `popen`
it, append every line `fgets` yields to `output`, and return `pclose`'s
value.  `popen` runs `cmd` through `/bin/sh`, so when `path` names no
existing executable the shell itself reports it: its diagnostic line goes
to the captured stream and `pclose` returns the shell's exit status 127;
when the executable exists and runs, the child's merged output is captured
and `pclose` returns the child's exit status. -/
def execute_process (sys : ExecEnv) (path args : String) (output : List String) :
    List String × Int :=
  match sys.run_exe path args with
  | some (lines, code) => (output ++ lines, wait_status code)
  | none => (output ++ [sh_not_found_line path], wait_status 127)

end os

/-! ## Concrete filesystem and execution states used as test inputs -/

/-- An empty filesystem: no path can be stat-ed. -/
def fs_empty : FS := ⟨[]⟩

/-- A filesystem holding one regular file `/home/a.txt` with mtime 77. -/
def fs_one_file : FS := ⟨[(["home", "a.txt"], ⟨.regular 3, 77⟩)]⟩

/-- A filesystem holding one dangling symbolic link `/lnk` (its target does
not resolve) with mtime 42. -/
def fs_dangling : FS := ⟨[(["lnk"], ⟨.symlink false, 42⟩)]⟩

/-- An execution state in which no path names an existing executable. -/
def sys_no_exe : ExecEnv := ⟨fun _ _ => none⟩

/-- An execution state in which every path names an existing executable
that prints exactly the shell's command-not-found diagnostic for that path
and exits with code 127. -/
def sys_mimic : ExecEnv := ⟨fun path _ => some ([sh_not_found_line path], 127)⟩

/-! ## C1 -/

/-- C1 is false as stated: at the concrete path `/nope` of the empty
filesystem the stat cannot be performed, `is_directory` (and `is_file`)
does not return `false` — the `lstat` assertion fires and no value is
returned at all. -/
theorem c1_counterexample :
    lstat fs_empty ["nope"] = none
    ∧ os.is_directory fs_empty ["nope"] = none
    ∧ os.is_file fs_empty ["nope"] = none
    ∧ os.is_directory fs_empty ["nope"] ≠ some false := by
  refine ⟨rfl, rfl, rfl, by decide⟩

/-- C1 (amended): `exists` never asserts and returns `false` whenever the
path cannot be stat-ed, but `is_directory` and `is_file` return normally
only when `lstat` succeeds: when it fails they fire the fatal `CE_ASSERT`
instead of returning `false`. -/
theorem c1_query_degradation (fs : FS) (p : FPath) :
    (lstat fs p = none →
      os.exists_ fs p = false ∧ os.is_directory fs p = none ∧ os.is_file fs p = none)
    ∧ (∀ e, lstat fs p = some e →
      (os.is_directory fs p).isSome ∧ (os.is_file fs p).isSome) := by
  constructor
  · intro h
    have h' : fs.lookup p = none := h
    refine ⟨?_, ?_, ?_⟩ <;>
      simp [os.exists_, access_F_OK, os.is_directory, os.is_file, lstat, h']
  · intro e he
    have he' : fs.lookup p = some e := he
    constructor <;> simp [os.is_directory, os.is_file, lstat, he']

/-! ## C2 -/

/-- C2 (amended): under the precondition `exists(path)`, `mtime` returns
normally with the last-modification time of the entry at the path and the
`lstat` assertion is unreachable. -/
theorem c2_mtime_under_exists (fs : FS) (p : FPath) (h : os.exists_ fs p = true) :
    ∃ e, lstat fs p = some e ∧ os.mtime fs p = some e.st_mtime := by
  unfold os.exists_ access_F_OK at h
  cases he : fs.lookup p with
  | none => rw [he] at h; simp at h
  | some e => exact ⟨e, he, by simp [os.mtime, lstat, he]⟩

/-- `mtime` on the existing file `/home/a.txt` returns its mtime 77. -/
theorem c2_witness :
    ∃ e, lstat fs_one_file ["home", "a.txt"] = some e
      ∧ os.mtime fs_one_file ["home", "a.txt"] = some e.st_mtime :=
  c2_mtime_under_exists fs_one_file ["home", "a.txt"] (by decide)

/-- C2 is false as stated: `/lnk` is a dangling symbolic link, so
`exists(/lnk)` is `false` (access follows the link and fails), yet `mtime`
does not hit its assertion — `lstat` succeeds on the link itself and the
call returns the link's own mtime 42, a perfectly recoverable result. -/
theorem c2_counterexample :
    os.exists_ fs_dangling ["lnk"] = false
    ∧ os.mtime fs_dangling ["lnk"] = some 42 := by
  refine ⟨by decide, rfl⟩

/-! ## C3 -/

/-- C3 (amended): on the POSIX branch a spawn failure is reported through
the shell: the captured output gains the shell's diagnostic line and the
returned value is the wait status of exit code 127 — exactly the result of
a child that does exist, prints the same line, and exits with code 127, so
the two are not distinguishable in the returned result. -/
theorem c3_spawn_vs_exit (sys1 sys2 : ExecEnv) (path args : String) (out : List String)
    (h1 : sys1.run_exe path args = none)
    (h2 : sys2.run_exe path args = some ([sh_not_found_line path], 127)) :
    os.execute_process sys1 path args out = os.execute_process sys2 path args out := by
  simp [os.execute_process, h1, h2]

/-- Running `/bin/frob` where it does not exist gives the very same result
as running it where it exists, echoes the diagnostic line, and exits 127. -/
theorem c3_witness :
    os.execute_process sys_no_exe "/bin/frob" "" []
      = os.execute_process sys_mimic "/bin/frob" "" [] :=
  c3_spawn_vs_exit sys_no_exe sys_mimic "/bin/frob" "" [] rfl rfl

/-- C3 is false as stated: at the concrete path `/bin/frob`, the
spawn-failure result coincides with the result of a completed run whose
exit code 127 is non-zero. -/
theorem c3_counterexample :
    sys_no_exe.run_exe "/bin/frob" "" = none
    ∧ sys_mimic.run_exe "/bin/frob" "" = some ([sh_not_found_line "/bin/frob"], 127)
    ∧ (127 : Nat) ≠ 0
    ∧ os.execute_process sys_no_exe "/bin/frob" "" []
        = os.execute_process sys_mimic "/bin/frob" "" [] := by
  exact ⟨rfl, rfl, by decide, rfl⟩

/-! ## C7 -/

/-- A process environment with `CROWN_TESTVAR` set to `"X"`. -/
def env_X : Env := [("CROWN_TESTVAR", "X")]

/-- C7: the POSIX branch of `getenv` meets the claim — `none` on an unset
name, the value on a set name — but the WINDOWS branch returns `NULL`
unconditionally (its `GetEnvironmentVariable` call is commented out), even
for a variable set to `"X"`. -/
theorem c7_getenv_branches :
    os.getenv_posix [] "CROWN_TESTVAR" = none
    ∧ os.getenv_posix env_X "CROWN_TESTVAR" = some "X"
    ∧ os.getenv_windows env_X "CROWN_TESTVAR" = none := by
  refine ⟨rfl, by decide, rfl⟩

/-! ## C8 -/

/-- C8 is false as stated: on the OSX branch `clocktime` reads the wall
clock with `gettimeofday`.  First call: the wall clock reads 100 s; the
clock is then adjusted back and the second call reads 50 s; the second
tick count is smaller — the returned count decreases under a wall-clock
adjustment. -/
theorem c8_counterexample :
    ¬ os.clocktime_osx ⟨50, 0⟩ ≥ os.clocktime_osx ⟨100, 0⟩ := by
  decide

/-- C8 (amended): on the LINUX/ANDROID branch, `clocktime` combines a
`CLOCK_MONOTONIC` sample as `sec * 10^9 + nsec`; the combination preserves
the order of valid samples (`0 ≤ nsec < 10^9`), so as long as the OS
monotonic source does not go backward (its contract), neither does the
returned tick count: `t1 ≥ t0` for successive calls. -/
theorem c8_clocktime_linux_monotone (t0 t1 : Timespec)
    (hn0 : 0 ≤ t0.tv_nsec) (hb0 : t0.tv_nsec < 1000000000)
    (hn1 : 0 ≤ t1.tv_nsec) (hb1 : t1.tv_nsec < 1000000000)
    (hmono : t0.tv_sec < t1.tv_sec ∨ (t0.tv_sec = t1.tv_sec ∧ t0.tv_nsec ≤ t1.tv_nsec)) :
    os.clocktime_linux t0 ≤ os.clocktime_linux t1 := by
  unfold os.clocktime_linux
  rcases hmono with h | ⟨hs, hn⟩
  · have h1 : t0.tv_sec + 1 ≤ t1.tv_sec := h
    have h2 : (t0.tv_sec + 1) * 1000000000 ≤ t1.tv_sec * 1000000000 :=
      mul_le_mul_of_nonneg_right h1 (by norm_num)
    linarith
  · rw [hs]
    linarith

/-- Two concrete monotonic samples in order: the combined tick counts are
in order as well. -/
theorem c8_witness : os.clocktime_linux ⟨5, 10⟩ ≤ os.clocktime_linux ⟨6, 2⟩ :=
  c8_clocktime_linux_monotone ⟨5, 10⟩ ⟨6, 2⟩ (by decide) (by decide) (by decide)
    (by decide) (by decide)

/-! ## C9 -/

/-- C9: the code is wrong: `ms` is `u32`, so `ms * 1000` wraps modulo
`2^32`.  At `ms = 4294968` the requested suspension is `4294968000` µs but
`usleep` is handed only `704` µs — a massive undershoot. -/
theorem c9_sleep_overflow :
    os.sleep_usleep_usec 4294968 = 704
    ∧ os.sleep_usleep_usec 4294968 < 4294968 * 1000 := by
  refine ⟨by decide, by decide⟩

/-! ## C4 -/

/-- When `lstat` succeeds, `is_directory` returns the classification of the
entry found. -/
theorem is_directory_of_lookup (fs : FS) (p : FPath) (e : Entry)
    (h : fs.lookup p = some e) :
    os.is_directory fs p = some (S_ISDIR e.kind && !(S_ISLNK e.kind)) := by
  simp [os.is_directory, lstat, h]

/-- When `lstat` succeeds, `is_file` returns the classification of the
entry found. -/
theorem is_file_of_lookup (fs : FS) (p : FPath) (e : Entry)
    (h : fs.lookup p = some e) :
    os.is_file fs p = some (S_ISREG e.kind && !(S_ISLNK e.kind)) := by
  simp [os.is_file, lstat, h]

/-- A present entry that is not a symbolic link resolves, so the path
exists. -/
theorem exists_of_nonlink (fs : FS) (p : FPath) (e : Entry)
    (h : fs.lookup p = some e) (hnl : S_ISLNK e.kind = false) :
    os.exists_ fs p = true := by
  unfold os.exists_ access_F_OK
  rw [h]
  cases hk : e.kind <;> simp_all [S_ISLNK]

/-- C4 (amended): on the POSIX branch, `is_directory` returns `true`
exactly on a path that exists, whose entry is a directory, and is not a
symbolic link; `is_file` returns `true` exactly on a path that exists,
whose entry is a regular file, and is not a symbolic link; and a path
whose entry is a symbolic link is classified as neither.  On the WINDOWS
branch the classification tests only the directory attribute: `is_directory`
is `true` exactly when the attributes are readable and the directory
attribute is set (a directory symbolic link included), and `is_file` is
`true` exactly when the attributes are readable and the directory
attribute is clear (a file symbolic link and any other non-directory
entry included). -/
theorem c4_classification (fs : FS) (p : FPath) (wfs : WinFS) (q : FPath) :
    (os.is_directory fs p = some true ↔
      os.exists_ fs p = true
        ∧ ∃ e, lstat fs p = some e ∧ (∃ ch, e.kind = EKind.directory ch)
          ∧ ∀ b, e.kind ≠ EKind.symlink b)
    ∧ (os.is_file fs p = some true ↔
      os.exists_ fs p = true
        ∧ ∃ e, lstat fs p = some e ∧ (∃ sz, e.kind = EKind.regular sz)
          ∧ ∀ b, e.kind ≠ EKind.symlink b)
    ∧ (∀ e b, lstat fs p = some e → e.kind = EKind.symlink b →
        os.is_directory fs p = some false ∧ os.is_file fs p = some false)
    ∧ (os.is_directory_windows wfs q = true ↔
        ∃ a, wfs.getFileAttributes q = some a ∧ a.directoryAttr = true)
    ∧ (os.is_file_windows wfs q = true ↔
        ∃ a, wfs.getFileAttributes q = some a ∧ a.directoryAttr = false) := by
  refine ⟨⟨?_, ?_⟩, ⟨?_, ?_⟩, ?_, ?_, ?_⟩
  · intro h
    cases he : fs.lookup p with
    | none => rw [os.is_directory, lstat, he] at h; cases h
    | some e =>
      rw [is_directory_of_lookup fs p e he] at h
      have hb := Option.some.inj h
      cases hk : e.kind with
      | regular sz => rw [hk] at hb; simp [S_ISDIR] at hb
      | symlink b => rw [hk] at hb; simp [S_ISDIR] at hb
      | directory ch =>
        refine ⟨exists_of_nonlink fs p e he (by rw [hk]; rfl), e, he, ⟨ch, hk⟩, ?_⟩
        intro b hcontra
        rw [hk] at hcontra
        cases hcontra
  · rintro ⟨-, e, he, ⟨ch, hk⟩, -⟩
    rw [is_directory_of_lookup fs p e he, hk]
    rfl
  · intro h
    cases he : fs.lookup p with
    | none => rw [os.is_file, lstat, he] at h; cases h
    | some e =>
      rw [is_file_of_lookup fs p e he] at h
      have hb := Option.some.inj h
      cases hk : e.kind with
      | directory ch => rw [hk] at hb; simp [S_ISREG] at hb
      | symlink b => rw [hk] at hb; simp [S_ISREG] at hb
      | regular sz =>
        refine ⟨exists_of_nonlink fs p e he (by rw [hk]; rfl), e, he, ⟨sz, hk⟩, ?_⟩
        intro b hcontra
        rw [hk] at hcontra
        cases hcontra
  · rintro ⟨-, e, he, ⟨sz, hk⟩, -⟩
    rw [is_file_of_lookup fs p e he, hk]
    rfl
  · intro e b he hk
    constructor
    · rw [is_directory_of_lookup fs p e he, hk]
      rfl
    · rw [is_file_of_lookup fs p e he, hk]
      rfl
  · cases ha : wfs.getFileAttributes q with
    | none => simp [os.is_directory_windows, ha]
    | some a => simp [os.is_directory_windows, ha]
  · cases ha : wfs.getFileAttributes q with
    | none => simp [os.is_file_windows, ha]
    | some a => simp [os.is_file_windows, ha]

/-- A Windows filesystem view holding a directory symbolic link `/dlink`
(directory attribute and reparse-point bit set) and a file symbolic link
`/flink` (reparse-point bit set, directory attribute clear). -/
def winfs_links : WinFS := ⟨[(["dlink"], ⟨true, true⟩), (["flink"], ⟨false, true⟩)]⟩

/-- C4 is false as stated: on the WINDOWS branch, the path `/dlink` is a
symbolic link (its reparse-point bit is set) yet `is_directory` classifies
it as a directory, and the symbolic link `/flink` is classified as a file
— a symbolic link is not "neither". -/
theorem c4_counterexample :
    (winfs_links.getFileAttributes ["dlink"]).map WinAttrs.reparsePoint = some true
    ∧ os.is_directory_windows winfs_links ["dlink"] = true
    ∧ (winfs_links.getFileAttributes ["flink"]).map WinAttrs.reparsePoint = some true
    ∧ os.is_file_windows winfs_links ["flink"] = true := by
  refine ⟨rfl, by decide, rfl, by decide⟩

/-! ## C5 -/

/-- Looking up the path just inserted yields the inserted entry. -/
theorem FS.lookup_insert (fs : FS) (p : FPath) (e : Entry) :
    (fs.insert p e).lookup p = some e := by
  unfold FS.insert FS.lookup
  rw [List.find?_cons_of_pos _ (by simp)]
  rfl

/-- C5 (amended): the POSIX branch of `create_file` fires its assertion —
it does not silently succeed — whenever an entry at `path` already exists
or the parent directory is missing, and in both failure cases the
filesystem (in particular any pre-existing entry) is left exactly as it
was; when the path is free and the parent directory exists, it returns
normally having created a new empty regular file at the path.  The
WINDOWS branch still fails when the parent directory is missing or the
path is an existing directory, and creates a new empty file on a free
path, but on an existing regular file it silently succeeds and truncates
the file to empty — the pre-existing entry is replaced, not left
unchanged. -/
theorem c5_create_file (fs : FS) (p : FPath) (now : Nat) :
    ((fs.lookup p).isSome → os.create_file fs p now = (false, fs))
    ∧ (os.parent_is_directory fs p = false → os.create_file fs p now = (false, fs))
    ∧ (fs.lookup p = none → os.parent_is_directory fs p = true →
        (os.create_file fs p now).1 = true
          ∧ (os.create_file fs p now).2.lookup p = some ⟨.regular 0, now⟩)
    ∧ (∀ e sz, fs.lookup p = some e → e.kind = EKind.regular sz →
        os.create_file_windows fs p now = (true, fs.insert p ⟨.regular 0, now⟩)
          ∧ (os.create_file_windows fs p now).2.lookup p = some ⟨.regular 0, now⟩)
    ∧ (∀ e ch, fs.lookup p = some e → e.kind = EKind.directory ch →
        os.create_file_windows fs p now = (false, fs))
    ∧ (fs.lookup p = none → os.parent_is_directory fs p = false →
        os.create_file_windows fs p now = (false, fs))
    ∧ (fs.lookup p = none → os.parent_is_directory fs p = true →
        (os.create_file_windows fs p now).1 = true
          ∧ (os.create_file_windows fs p now).2.lookup p = some ⟨.regular 0, now⟩) := by
  refine ⟨?_, ?_, ?_, ?_, ?_, ?_, ?_⟩
  · intro h
    simp [os.create_file, h]
  · intro h
    by_cases hs : (fs.lookup p).isSome
    · simp [os.create_file, hs]
    · simp [os.create_file, hs, h]
  · intro h1 h2
    have hcf : os.create_file fs p now
        = (true, ⟨(p, ⟨EKind.regular 0, now⟩) :: fs.entries⟩) := by
      simp [os.create_file, h1, h2]
    rw [hcf]
    exact ⟨rfl, FS.lookup_insert fs p ⟨EKind.regular 0, now⟩⟩
  · intro e sz he hk
    have hcw : os.create_file_windows fs p now
        = (true, fs.insert p ⟨EKind.regular 0, now⟩) := by
      simp [os.create_file_windows, he, hk]
    exact ⟨hcw, by rw [hcw]; exact FS.lookup_insert fs p ⟨EKind.regular 0, now⟩⟩
  · intro e ch he hk
    simp [os.create_file_windows, he, hk]
  · intro h1 h2
    simp [os.create_file_windows, h1, h2]
  · intro h1 h2
    have hcw : os.create_file_windows fs p now
        = (true, fs.insert p ⟨EKind.regular 0, now⟩) := by
      simp [os.create_file_windows, h1, h2]
    rw [hcw]
    exact ⟨rfl, FS.lookup_insert fs p ⟨EKind.regular 0, now⟩⟩

/-- C5 is false as stated: on the WINDOWS branch, `create_file` on the
existing regular file `/home/a.txt` (size 3, mtime 77) does not fail — it
returns normally — and the pre-existing entry is not left unchanged: it is
replaced by the truncated empty file. -/
theorem c5_counterexample :
    fs_one_file.lookup ["home", "a.txt"] = some ⟨.regular 3, 77⟩
    ∧ (os.create_file_windows fs_one_file ["home", "a.txt"] 99).1 = true
    ∧ (os.create_file_windows fs_one_file ["home", "a.txt"] 99).2.lookup
        ["home", "a.txt"] = some ⟨.regular 0, 99⟩
    ∧ some (⟨.regular 0, 99⟩ : Entry) ≠ some (⟨.regular 3, 77⟩ : Entry) := by
  refine ⟨rfl, rfl, rfl, by decide⟩

/-! ## C6 and C10: the readdir loop -/

/-- The `readdir` loop of `list_files` appends to the accumulated vector
exactly the entry names of the stream other than `"."` and `".."`, in
stream order. -/
theorem foldl_push_back_eq (names acc : List String) :
    names.foldl
        (fun acc dname => if dname == "." || dname == ".." then acc else acc ++ [dname])
        acc
      = acc ++ names.filter (fun dname => !(dname == "." || dname == "..")) := by
  induction names generalizing acc with
  | nil => simp
  | cons n ns ih =>
    rw [List.foldl_cons]
    rcases Bool.eq_false_or_eq_true (n == "." || n == "..") with h | h
    · rw [if_pos h, ih acc]
      have h' : n = "." ∨ n = ".." := by simpa using h
      simp only [List.filter_cons]
      rcases h' with rfl | rfl <;> simp
    · rw [if_neg (by simp [h]), ih (acc ++ [n])]
      simp only [List.filter_cons, h, Bool.not_false, if_true]
      simp [List.append_assoc]

/-- A filesystem holding one directory `/d` whose immediate children are
exactly `a.txt` and `sub`. -/
def fs_listing : FS := ⟨[(["d"], ⟨.directory ["a.txt", "sub"], 0⟩)]⟩

/-- C6: on a directory whose immediate children are exactly `{a.txt, sub}`
(in whatever enumeration order), `list_files` into an empty vector yields
exactly the names `"a.txt"` and `"sub"` up to order; for every path the
produced names never include `"."` or `".."`; and on a path that cannot be
opened as a directory the produced sequence is empty. -/
theorem c6_list_files (fs : FS) (p : FPath) (e : Entry) (children : List String)
    (hdir : fs.lookup p = some e) (hk : e.kind = EKind.directory children)
    (hperm : children.Perm ["a.txt", "sub"]) :
    (os.list_files fs p []).Perm ["a.txt", "sub"]
    ∧ (∀ fs2 p2 d, d ∈ os.list_files fs2 p2 [] → d ≠ "." ∧ d ≠ "..")
    ∧ (∀ fs2 p2, os.opendir fs2 p2 = none → os.list_files fs2 p2 [] = []) := by
  refine ⟨?_, ?_, ?_⟩
  · have hopen : os.opendir fs p = some ("." :: ".." :: children) := by
      simp [os.opendir, hdir, hk]
    have heq : os.list_files fs p []
        = List.filter (fun d => !(d == "." || d == "..")) children := by
      simp only [os.list_files, hopen]
      rw [foldl_push_back_eq]
      simp only [List.nil_append, List.filter_cons]
      norm_num
    rw [heq]
    have hfix : List.filter (fun d => !(d == "." || d == "..")) children = children := by
      apply List.filter_eq_self.mpr
      intro a ha
      have hmem : a ∈ ["a.txt", "sub"] := hperm.mem_iff.mp ha
      simp only [List.mem_cons, List.mem_singleton, List.not_mem_nil, or_false] at hmem
      rcases hmem with rfl | rfl <;> decide
    rw [hfix]
    exact hperm
  · intro fs2 p2 d hd
    cases ho : os.opendir fs2 p2 with
    | none => simp [os.list_files, ho] at hd
    | some names =>
      simp only [os.list_files, ho] at hd
      rw [foldl_push_back_eq] at hd
      simp only [List.nil_append, List.mem_filter] at hd
      obtain ⟨-, hpred⟩ := hd
      constructor <;> · rintro rfl; simp at hpred
  · intro fs2 p2 ho
    simp [os.list_files, ho]

/-- `list_files` on the concrete directory `/d` with children `a.txt` and
`sub` yields exactly those two names; no call yields `"."` or `".."`; a
non-openable path yields nothing. -/
theorem c6_witness :
    (os.list_files fs_listing ["d"] []).Perm ["a.txt", "sub"]
    ∧ (∀ fs2 p2 d, d ∈ os.list_files fs2 p2 [] → d ≠ "." ∧ d ≠ "..")
    ∧ (∀ fs2 p2, os.opendir fs2 p2 = none → os.list_files fs2 p2 [] = []) :=
  c6_list_files fs_listing ["d"] ⟨EKind.directory ["a.txt", "sub"], 0⟩
    ["a.txt", "sub"] (by decide) rfl (by decide)

/-! ## C10 -/

/-- C10: `list_files` only appends to the caller-supplied vector: the
result is the vector passed in followed by the names produced from an
empty vector, so every element present before the call is still present,
in the same order and positions; and when the path cannot be opened as a
directory the vector is returned exactly as passed, not cleared. -/
theorem c10_list_files_frame (fs : FS) (p : FPath) (files : List String) :
    os.list_files fs p files = files ++ os.list_files fs p []
    ∧ (os.opendir fs p = none → os.list_files fs p files = files) := by
  constructor
  · cases ho : os.opendir fs p with
    | none => simp [os.list_files, ho]
    | some names =>
      simp only [os.list_files, ho]
      rw [foldl_push_back_eq, foldl_push_back_eq]
      simp
  · intro ho
    simp [os.list_files, ho]
